import Mathlib

/-!
Verification of the decision-fusion core of the `ai-stock-web` repository.

Part 1 embeds `src/utils/score_fusion.py` (the function `compute_probabilities`
and its helpers `sigmoid` and `clamp`) and the confidence-level mapping of
`src/utils/confidence_utils.py` over the real numbers: the Python source
computes with IEEE floats and `math.exp`; we model those values as exact reals.
The source rounds the values placed in the returned dictionary to 4 (resp. 6)
decimal places for display only — every decision the source takes (action
thresholds, override pass, confidence level) is taken on the unrounded values,
so the unrounded values are what is modelled here.

Part 2 embeds `src/utils/profile_classifier.py` (`generate_semantic_flags` and
`get_action_profile`) over the rationals, keeping every threshold and the flag
vocabulary exactly as in the source.
-/

namespace ScoreFusion

/-- `sigmoid` from `src/utils/score_fusion.py` lines 4-8:
`if x > 20: return 1.0`, `if x < -20: return 0.0`, else `1/(1+exp(-x))`. -/
noncomputable def sigmoid (x : ℝ) : ℝ :=
  if 20 < x then 1
  else if x < -20 then 0
  else 1 / (1 + Real.exp (-x))

/-- `clamp` from `src/utils/score_fusion.py` lines 10-11:
`max(min_val, min(val, max_val))`. -/
noncomputable def clamp (val minVal maxVal : ℝ) : ℝ :=
  max minVal (min val maxVal)

/-- The conditioning pattern used three times in the source (comment at line 68):
`p_cond = 0.5 + (p_target - 0.5) * gate`. -/
noncomputable def gateCond (p g : ℝ) : ℝ :=
  0.5 + (p - 0.5) * g

/-- The five action grades of `compute_probabilities` (lines 173-182); the
source represents them by the Korean strings returned by `actionLabel`. -/
inductive Action where
  | aggressiveBuy
  | buy
  | hold
  | sell
  | aggressiveSell
deriving DecidableEq

/-- The literal string the source uses for each action grade. -/
def actionLabel : Action → String
  | .aggressiveBuy => "적극적 매수"
  | .buy => "매수"
  | .hold => "현상 유지"
  | .sell => "매도"
  | .aggressiveSell => "적극적 매도"

/-- `grade_order` from line 192: `["적극적 매수", "매수", "현상 유지", "매도", "적극적 매도"]`. -/
def gradeOrder : List Action :=
  [.aggressiveBuy, .buy, .hold, .sell, .aggressiveSell]

/-- The risk-off shift of lines 193-196: `idx = grade_order.index(action)`,
`new_idx = min(idx + 1, 4)`, `action = grade_order[new_idx]`.  (The `except
ValueError` branch of the source is dead code: `action` is always a member of
`grade_order`.) -/
def riskOffStep (a : Action) : Action :=
  gradeOrder.getD (min (gradeOrder.indexOf a + 1) 4) a

/-- Decision grading, lines 173-182: thresholds 0.95 / 0.70 / 0.40 / 0.10. -/
noncomputable def decisionGrade (p : ℝ) : Action :=
  if 0.95 ≤ p then .aggressiveBuy
  else if 0.70 ≤ p then .buy
  else if 0.40 ≤ p then .hold
  else if 0.10 ≤ p then .sell
  else .aggressiveSell

/-- The override annotations appended to `breakdown["flags"]` (lines 185-210).
`riskOffAdjusted old new` stands for the string `"risk_off_adjusted: {old}->{new}"`. -/
inductive FusionFlag where
  | riskOffAdjusted (old new : Action)
  | relativeStrengthInWeakSector
  | industryScoreFallback
deriving DecidableEq

/-- Confidence levels of `src/utils/confidence_utils.py` ("높음"/"중간"/"낮음"). -/
inductive ConfLevel where
  | high
  | medium
  | low
deriving DecidableEq

/-- `map_confidence_level` from `src/utils/confidence_utils.py`:
`>= 0.85 → 높음`, `>= 0.70 → 중간`, else `낮음`. -/
noncomputable def mapConfidenceLevel (c : ℝ) : ConfLevel :=
  if 0.85 ≤ c then .high
  else if 0.70 ≤ c then .medium
  else .low

/- Intermediate quantities of `compute_probabilities`, one definition per
source assignment (lines 44-82).  The calibration constants `kM kI kS kT`
default to 12, 12, 10, 10 in the source (line 37); `fuse` below applies the
defaults. -/

/-- Line 46: `pM = sigmoid((M - 50.0) / kM)`. -/
noncomputable def pM (M kM : ℝ) : ℝ := sigmoid ((M - 50) / kM)

/-- Line 47: `pS = sigmoid((S - 50.0) / kS)`. -/
noncomputable def pS (S kS : ℝ) : ℝ := sigmoid ((S - 50) / kS)

/-- Line 48: `pT = sigmoid((T - 50.0) / kT)`. -/
noncomputable def pT (T kT : ℝ) : ℝ := sigmoid ((T - 50) / kT)

/-- Lines 51-57: `pI = sigmoid((I - 50.0) / kI)` when `I` is present, else
`pI = pS` (the industry-fallback). -/
noncomputable def pI (I : Option ℝ) (S kI kS : ℝ) : ℝ :=
  match I with
  | some i => sigmoid ((i - 50) / kI)
  | none => pS S kS

/-- Line 58: `I_val_for_conf = I` when present, else `S`. -/
def I_val_for_conf (I : Option ℝ) (S : ℝ) : ℝ := I.getD S

/-- Line 64: `gM = clamp((pM - 0.35) / 0.30, 0.0, 1.0)`. -/
noncomputable def gM (M kM : ℝ) : ℝ := clamp ((pM M kM - 0.35) / 0.30) 0 1

/-- Line 69: `pI_given_M = 0.5 + (pI - 0.5) * gM`. -/
noncomputable def pI_given_M (M : ℝ) (I : Option ℝ) (S kM kI kS : ℝ) : ℝ :=
  gateCond (pI I S kI kS) (gM M kM)

/-- Line 72: `gI = clamp((pI_given_M - 0.40) / 0.25, 0.0, 1.0)`. -/
noncomputable def gI (M : ℝ) (I : Option ℝ) (S kM kI kS : ℝ) : ℝ :=
  clamp ((pI_given_M M I S kM kI kS - 0.40) / 0.25) 0 1

/-- Line 75: `pS_given_I = 0.5 + (pS - 0.5) * gI`. -/
noncomputable def pS_given_I (M : ℝ) (I : Option ℝ) (S kM kI kS : ℝ) : ℝ :=
  gateCond (pS S kS) (gI M I S kM kI kS)

/-- Line 80: `gT = clamp((pM - 0.40) / 0.30, 0.2, 1.0)`. -/
noncomputable def gT (M kM : ℝ) : ℝ := clamp ((pM M kM - 0.40) / 0.30) 0.2 1

/-- Line 81: `pT_adj = 0.5 + (pT - 0.5) * gT`. -/
noncomputable def pT_adj (M T kM kT : ℝ) : ℝ :=
  gateCond (pT T kT) (gT M kM)

/-- Line 167: `p_product = pM * pI_given_M * pS_given_I * pT_adj`. -/
noncomputable def p_product (M : ℝ) (I : Option ℝ) (S T kM kI kS kT : ℝ) : ℝ :=
  pM M kM * pI_given_M M I S kM kI kS * pS_given_I M I S kM kI kS * pT_adj M T kM kT

/-- Line 168: `p_up = math.pow(p_product, 0.25)` (real power, the source's
geometric-mean rescaling). -/
noncomputable def p_up (M : ℝ) (I : Option ℝ) (S T kM kI kS kT : ℝ) : ℝ :=
  p_product M I S T kM kI kS kT ^ (0.25 : ℝ)

/-- Lines 215-217: `D = max(values) - min(values)` over `[M, I_val_for_conf, S, T]`,
then `conf_agree = 1.0 - clamp(D / 60.0, 0.0, 1.0)`. -/
noncomputable def confAgree (M : ℝ) (I : Option ℝ) (S T : ℝ) : ℝ :=
  1 - clamp ((max (max M (I_val_for_conf I S)) (max S T) -
      min (min M (I_val_for_conf I S)) (min S T)) / 60) 0 1

/-- Line 219: `confidence = 0.7 * conf_agree + 0.3 * conf_quality`. -/
noncomputable def confidence (M : ℝ) (I : Option ℝ) (S T confQuality : ℝ) : ℝ :=
  0.7 * confAgree M I S T + 0.3 * confQuality

/-- The `breakdown` dictionary of the returned value (lines 230-243),
unrounded (the source rounds for display only). -/
structure Breakdown where
  pM : ℝ
  pI : ℝ
  pS : ℝ
  pT : ℝ
  pI_given_M : ℝ
  pS_given_I : ℝ
  pT_adj : ℝ
  gM : ℝ
  gI : ℝ
  gT : ℝ
  p_product : ℝ
  flags : List FusionFlag

/-- The dictionary returned by `compute_probabilities` (lines 225-250); the
`inputs` echo is carried in the last four fields. -/
structure FusionResult where
  p_up : ℝ
  action : Action
  confidence : ℝ
  confidence_level : ConfLevel
  breakdown : Breakdown
  inM : ℝ
  inI : Option ℝ
  inS : ℝ
  inT : ℝ

/-- `compute_probabilities(M, I, S, T, conf_quality, k_params)` from
`src/utils/score_fusion.py` lines 13-250, assembled from the per-line
definitions above.  The action is `decisionGrade p_up`, shifted one grade
toward selling when `M < 25` (lines 189-197); the flag list collects, in
source order, the risk-off annotation, the relative-strength flag
(`I is not None and I < 30 and S > 75`, line 205) and the industry-fallback
flag (`I is None`, line 209). -/
noncomputable def computeProbabilities (M : ℝ) (I : Option ℝ) (S T : ℝ)
    (confQuality : ℝ) (kM kI kS kT : ℝ) : FusionResult :=
  { p_up := p_up M I S T kM kI kS kT
    action :=
      if M < 25 then riskOffStep (decisionGrade (p_up M I S T kM kI kS kT))
      else decisionGrade (p_up M I S T kM kI kS kT)
    confidence := confidence M I S T confQuality
    confidence_level := mapConfidenceLevel (confidence M I S T confQuality)
    breakdown :=
      { pM := pM M kM
        pI := pI I S kI kS
        pS := pS S kS
        pT := pT T kT
        pI_given_M := pI_given_M M I S kM kI kS
        pS_given_I := pS_given_I M I S kM kI kS
        pT_adj := pT_adj M T kM kT
        gM := gM M kM
        gI := gI M I S kM kI kS
        gT := gT M kM
        p_product := p_product M I S T kM kI kS kT
        flags :=
          (if M < 25 then
            [FusionFlag.riskOffAdjusted (decisionGrade (p_up M I S T kM kI kS kT))
              (riskOffStep (decisionGrade (p_up M I S T kM kI kS kT)))]
          else []) ++
          (match I with
            | some i =>
              if i < 30 ∧ 75 < S then [FusionFlag.relativeStrengthInWeakSector] else []
            | none => [FusionFlag.industryScoreFallback]) }
    inM := M
    inI := I
    inS := S
    inT := T }

/-- The spec's `fuse` contract: `compute_probabilities` with the source's
default arguments `conf_quality = 1.0` and `k_params = {kM:12, kI:12, kS:10, kT:10}`. -/
noncomputable def fuse (M : ℝ) (I : Option ℝ) (S T : ℝ) : FusionResult :=
  computeProbabilities M I S T 1 12 12 10 10

/- Projection lemmas: the record fields of `computeProbabilities` by name. -/

lemma fuse_def (M : ℝ) (I : Option ℝ) (S T : ℝ) :
    fuse M I S T = computeProbabilities M I S T 1 12 12 10 10 := rfl

lemma cp_p_up (M : ℝ) (I : Option ℝ) (S T q kM kI kS kT : ℝ) :
    (computeProbabilities M I S T q kM kI kS kT).p_up = p_up M I S T kM kI kS kT := rfl

lemma cp_action (M : ℝ) (I : Option ℝ) (S T q kM kI kS kT : ℝ) :
    (computeProbabilities M I S T q kM kI kS kT).action =
      if M < 25 then riskOffStep (decisionGrade (p_up M I S T kM kI kS kT))
      else decisionGrade (p_up M I S T kM kI kS kT) := rfl

lemma cp_confidence (M : ℝ) (I : Option ℝ) (S T q kM kI kS kT : ℝ) :
    (computeProbabilities M I S T q kM kI kS kT).confidence = confidence M I S T q := rfl

lemma cp_pI (M : ℝ) (I : Option ℝ) (S T q kM kI kS kT : ℝ) :
    (computeProbabilities M I S T q kM kI kS kT).breakdown.pI = pI I S kI kS := rfl

lemma cp_flags (M : ℝ) (I : Option ℝ) (S T q kM kI kS kT : ℝ) :
    (computeProbabilities M I S T q kM kI kS kT).breakdown.flags =
      (if M < 25 then
        [FusionFlag.riskOffAdjusted (decisionGrade (p_up M I S T kM kI kS kT))
          (riskOffStep (decisionGrade (p_up M I S T kM kI kS kT)))]
      else []) ++
      (match I with
        | some i =>
          if i < 30 ∧ 75 < S then [FusionFlag.relativeStrengthInWeakSector] else []
        | none => [FusionFlag.industryScoreFallback]) := rfl

/- Basic analytic facts about the embedded helpers. -/

lemma sigmoidCore_le_one (x : ℝ) : 1 / (1 + Real.exp (-x)) ≤ 1 := by
  rw [div_le_one (by positivity)]
  have := Real.exp_pos (-x)
  linarith

lemma sigmoidCore_mono {x y : ℝ} (h : x ≤ y) :
    1 / (1 + Real.exp (-x)) ≤ 1 / (1 + Real.exp (-y)) := by
  apply one_div_le_one_div_of_le
  · positivity
  · have := Real.exp_le_exp.mpr (neg_le_neg h)
    linarith

lemma sigmoid_nonneg (x : ℝ) : 0 ≤ sigmoid x := by
  unfold sigmoid
  split_ifs <;> positivity

lemma sigmoid_le_one (x : ℝ) : sigmoid x ≤ 1 := by
  unfold sigmoid
  split_ifs
  · exact le_rfl
  · norm_num
  · exact sigmoidCore_le_one _

lemma sigmoid_mono : Monotone sigmoid := by
  intro x y hxy
  unfold sigmoid
  split_ifs
  · exact le_rfl
  · linarith
  · linarith
  · norm_num
  · exact le_rfl
  · positivity
  · exact sigmoidCore_le_one _
  · linarith
  · exact sigmoidCore_mono hxy

lemma sigmoid_half_le {x : ℝ} (hx : 0 ≤ x) : 1/2 ≤ sigmoid x := by
  have h := sigmoid_mono hx
  have h0 : sigmoid 0 = 1/2 := by
    unfold sigmoid
    rw [if_neg (by norm_num), if_neg (by norm_num), neg_zero, Real.exp_zero]
    norm_num
  rw [h0] at h
  exact h

lemma sigmoid_zero : sigmoid 0 = 1/2 := by
  unfold sigmoid
  rw [if_neg (by norm_num), if_neg (by norm_num), neg_zero, Real.exp_zero]
  norm_num

lemma sigmoid_eq {x : ℝ} (h1 : x ≤ 20) (h2 : -20 ≤ x) :
    sigmoid x = 1 / (1 + Real.exp (-x)) := by
  unfold sigmoid
  rw [if_neg (by linarith), if_neg (by linarith)]

lemma sigmoid_lt_sigmoid {x y : ℝ} (hx1 : x ≤ 20) (hx2 : -20 ≤ x) (hy1 : y ≤ 20)
    (hy2 : -20 ≤ y) (h : x < y) : sigmoid x < sigmoid y := by
  rw [sigmoid_eq hx1 hx2, sigmoid_eq hy1 hy2]
  apply one_div_lt_one_div_of_lt
  · positivity
  · have := Real.exp_lt_exp.mpr (neg_lt_neg h)
    linarith

lemma sigmoid_ge {x c : ℝ} (h1 : x ≤ 20) (h2 : -20 ≤ x) (hc : 0 < c)
    (h : c ≤ Real.exp x) : c / (c + 1) ≤ sigmoid x := by
  rw [sigmoid_eq h1 h2, Real.exp_neg]
  have hex : (Real.exp x)⁻¹ ≤ c⁻¹ := inv_anti₀ hc h
  rw [inv_eq_one_div, inv_eq_one_div] at hex
  have hpos : 0 < 1 + (Real.exp x)⁻¹ := by positivity
  have hstep : 1 + (Real.exp x)⁻¹ ≤ (c + 1) / c := by
    rw [add_div, div_self (ne_of_gt hc), inv_eq_one_div]
    linarith
  have h3 := one_div_le_one_div_of_le hpos hstep
  rw [one_div_div] at h3
  exact h3

lemma sigmoid_le_bound {x c : ℝ} (h1 : x ≤ 20) (h2 : -20 ≤ x) (hc : 0 < c)
    (h : c ≤ Real.exp (-x)) : sigmoid x ≤ 1 / (1 + c) := by
  rw [sigmoid_eq h1 h2]
  exact one_div_le_one_div_of_le (by linarith) (by linarith)

lemma sigmoid_ge_bound {x c : ℝ} (h1 : x ≤ 20) (h2 : -20 ≤ x)
    (h : Real.exp (-x) ≤ c) : 1 / (1 + c) ≤ sigmoid x := by
  rw [sigmoid_eq h1 h2]
  exact one_div_le_one_div_of_le (by positivity) (by linarith)

/- Clamp and gate facts. -/

lemma le_clamp (v lo hi : ℝ) : lo ≤ clamp v lo hi := le_max_left _ _

lemma clamp_le {lo hi : ℝ} (v : ℝ) (h : lo ≤ hi) : clamp v lo hi ≤ hi :=
  max_le h (min_le_right _ _)

lemma clamp_mono {v w : ℝ} (lo hi : ℝ) (h : v ≤ w) : clamp v lo hi ≤ clamp w lo hi :=
  max_le_max le_rfl (min_le_min h le_rfl)

lemma clamp_eq_lo {v lo hi : ℝ} (hv : v ≤ lo) : clamp v lo hi = lo := by
  unfold clamp
  exact max_eq_left (le_trans (min_le_left _ _) hv)

lemma clamp_eq_hi {v lo hi : ℝ} (hv : hi ≤ v) (hlh : lo ≤ hi) : clamp v lo hi = hi := by
  unfold clamp
  rw [min_eq_right hv, max_eq_right hlh]

lemma clamp_eq_self {v lo hi : ℝ} (h1 : lo ≤ v) (h2 : v ≤ hi) : clamp v lo hi = v := by
  unfold clamp
  rw [min_eq_left h2, max_eq_right h1]

lemma gateCond_zero (p : ℝ) : gateCond p 0 = 1/2 := by unfold gateCond; ring

lemma gateCond_one (p : ℝ) : gateCond p 1 = p := by unfold gateCond; ring

lemma gateCond_half (g : ℝ) : gateCond (1/2) g = 1/2 := by unfold gateCond; ring

lemma gateCond_nonneg {p g : ℝ} (hp0 : 0 ≤ p) (hg0 : 0 ≤ g) (hg1 : g ≤ 1) :
    0 ≤ gateCond p g := by
  unfold gateCond
  nlinarith

lemma gateCond_le_one {p g : ℝ} (hp1 : p ≤ 1) (hg0 : 0 ≤ g) (hg1 : g ≤ 1) :
    gateCond p g ≤ 1 := by
  unfold gateCond
  nlinarith

lemma gateCond_half_le {p g : ℝ} (hp : 1/2 ≤ p) (hg : 0 ≤ g) : 1/2 ≤ gateCond p g := by
  unfold gateCond
  nlinarith

lemma gateCond_mono_g {p g1 g2 : ℝ} (hp : 1/2 ≤ p) (hg : g1 ≤ g2) :
    gateCond p g1 ≤ gateCond p g2 := by
  unfold gateCond
  nlinarith

/- Numeric bounds on the exponential, used to evaluate the calibration at the
extreme scores 0 and 100 (arguments ±50/12 = ±25/6 and ±50/10 = ±5). -/

lemma exp_five_ge : (140 : ℝ) ≤ Real.exp 5 := by
  have h2 : Real.exp (5 : ℝ) = Real.exp 1 ^ (5 : ℕ) := by
    rw [← Real.exp_nat_mul]
    norm_num
  have h1 : (2.7182818283 : ℝ) ^ (5 : ℕ) ≤ Real.exp 1 ^ (5 : ℕ) :=
    pow_le_pow_left₀ (by norm_num) (le_of_lt Real.exp_one_gt_d9) 5
  rw [h2]
  calc (140 : ℝ) ≤ 2.7182818283 ^ (5 : ℕ) := by norm_num
  _ ≤ Real.exp 1 ^ (5 : ℕ) := h1

lemma exp_256_ge : (63 : ℝ) ≤ Real.exp (25 / 6) := by
  have h4 : Real.exp (4 : ℝ) = Real.exp 1 ^ (4 : ℕ) := by
    rw [← Real.exp_nat_mul]
    norm_num
  have h1 : (2.7182818283 : ℝ) ^ (4 : ℕ) ≤ Real.exp 1 ^ (4 : ℕ) :=
    pow_le_pow_left₀ (by norm_num) (le_of_lt Real.exp_one_gt_d9) 4
  have h6 : (7 : ℝ) / 6 ≤ Real.exp (1 / 6) := by
    have := Real.add_one_le_exp ((1 : ℝ) / 6)
    linarith
  have hsplit : Real.exp ((25 : ℝ) / 6) = Real.exp 4 * Real.exp (1 / 6) := by
    rw [← Real.exp_add]
    norm_num
  rw [hsplit, h4]
  calc (63 : ℝ) ≤ 2.7182818283 ^ (4 : ℕ) * (7 / 6) := by norm_num
  _ ≤ Real.exp 1 ^ (4 : ℕ) * Real.exp (1 / 6) :=
      mul_le_mul h1 h6 (by norm_num) (by positivity)

lemma exp_sixth_le : Real.exp ((1 : ℝ) / 6) ≤ 6 / 5 := by
  have ha : (5 : ℝ) / 6 ≤ Real.exp (-(1 / 6)) := by
    have := Real.add_one_le_exp (-(1 / 6) : ℝ)
    linarith
  have hrw : Real.exp ((1 : ℝ) / 6) = (Real.exp (-((1 : ℝ) / 6)))⁻¹ := by
    rw [Real.exp_neg, inv_inv]
  rw [hrw]
  calc (Real.exp (-((1 : ℝ) / 6)))⁻¹ ≤ ((5 : ℝ) / 6)⁻¹ := inv_anti₀ (by norm_num) ha
  _ = 6 / 5 := by norm_num

lemma exp_256_le : Real.exp ((25 : ℝ) / 6) ≤ 66 := by
  have h4 : Real.exp (4 : ℝ) = Real.exp 1 ^ (4 : ℕ) := by
    rw [← Real.exp_nat_mul]
    norm_num
  have h1 : Real.exp 1 ^ (4 : ℕ) ≤ (2.7182818286 : ℝ) ^ (4 : ℕ) :=
    pow_le_pow_left₀ (Real.exp_pos 1).le (le_of_lt Real.exp_one_lt_d9) 4
  have hsplit : Real.exp ((25 : ℝ) / 6) = Real.exp 4 * Real.exp (1 / 6) := by
    rw [← Real.exp_add]
    norm_num
  rw [hsplit, h4]
  calc Real.exp 1 ^ (4 : ℕ) * Real.exp ((1 : ℝ) / 6)
      ≤ 2.7182818286 ^ (4 : ℕ) * (6 / 5) :=
        mul_le_mul h1 exp_sixth_le (Real.exp_pos _).le (by positivity)
  _ ≤ 66 := by norm_num

/- Concrete calibration values at the extreme scores. -/

lemma sigmoid_256_ge : (63 : ℝ) / 64 ≤ sigmoid (25 / 6) := by
  have h := sigmoid_ge (x := 25 / 6) (c := 63) (by norm_num) (by norm_num) (by norm_num)
    exp_256_ge
  norm_num at h
  norm_num
  exact h

lemma sigmoid_five_ge : (140 : ℝ) / 141 ≤ sigmoid 5 := by
  have h := sigmoid_ge (x := 5) (c := 140) (by norm_num) (by norm_num) (by norm_num)
    exp_five_ge
  norm_num at h
  norm_num
  exact h

lemma sigmoid_neg256_le : sigmoid (-(25 / 6)) ≤ 1 / 64 := by
  have h := sigmoid_le_bound (x := -(25 / 6)) (c := 63) (by norm_num) (by norm_num)
    (by norm_num) (by rw [neg_neg]; exact exp_256_ge)
  norm_num at h
  norm_num
  exact h

lemma sigmoid_neg256_ge : (1 : ℝ) / 67 ≤ sigmoid (-(25 / 6)) := by
  have h := sigmoid_ge_bound (x := -(25 / 6)) (c := 66) (by norm_num) (by norm_num)
    (by rw [neg_neg]; exact exp_256_le)
  norm_num at h
  norm_num
  exact h

lemma sigmoid_neg5_le : sigmoid (-5) ≤ 1 / 141 := by
  have h := sigmoid_le_bound (x := -5) (c := 140) (by norm_num) (by norm_num)
    (by norm_num) (by rw [neg_neg]; exact exp_five_ge)
  norm_num at h
  norm_num
  exact h

/- Decision-grade evaluation helpers. -/

lemma decisionGrade_aggressiveBuy {p : ℝ} (h : 0.95 ≤ p) :
    decisionGrade p = .aggressiveBuy := by
  unfold decisionGrade
  rw [if_pos h]

lemma decisionGrade_hold {p : ℝ} (h1 : 0.40 ≤ p) (h2 : p < 0.70) :
    decisionGrade p = .hold := by
  unfold decisionGrade
  rw [if_neg (by linarith), if_neg (by linarith), if_pos h1]

lemma decisionGrade_sell {p : ℝ} (h1 : 0.10 ≤ p) (h2 : p < 0.40) :
    decisionGrade p = .sell := by
  unfold decisionGrade
  rw [if_neg (by linarith), if_neg (by linarith), if_neg (by linarith), if_pos h1]

/- Evaluation of the fused probability at all-neutral inputs. -/

lemma pM_neutral : pM 50 12 = 1/2 := by
  have : pM 50 12 = sigmoid 0 := by
    unfold pM
    norm_num
  rw [this, sigmoid_zero]

lemma pS_neutral : pS 50 10 = 1/2 := by
  have : pS 50 10 = sigmoid 0 := by
    unfold pS
    norm_num
  rw [this, sigmoid_zero]

lemma pT_neutral : pT 50 10 = 1/2 := by
  have : pT 50 10 = sigmoid 0 := by
    unfold pT
    norm_num
  rw [this, sigmoid_zero]

lemma p_up_neutral : p_up 50 (some 50) 50 50 12 12 10 10 = 1/2 := by
  have hI : pI (some 50) 50 12 10 = 1/2 := by
    show sigmoid ((50 - 50) / 12) = 1/2
    norm_num [sigmoid_zero]
  have h1 : pI_given_M 50 (some 50) 50 12 12 10 = 1/2 := by
    unfold pI_given_M
    rw [hI, gateCond_half]
  have h2 : pS_given_I 50 (some 50) 50 12 12 10 = 1/2 := by
    unfold pS_given_I
    rw [pS_neutral, gateCond_half]
  have h3 : pT_adj 50 50 12 10 = 1/2 := by
    unfold pT_adj
    rw [pT_neutral, gateCond_half]
  have h4 : p_product 50 (some 50) 50 50 12 12 10 10 = ((1:ℝ)/2) ^ (4 : ℕ) := by
    unfold p_product
    rw [pM_neutral, h1, h2, h3]
    ring
  unfold p_up
  rw [h4, show (0.25 : ℝ) = (((4 : ℕ) : ℝ))⁻¹ by norm_num]
  exact Real.pow_rpow_inv_natCast (by norm_num) (by norm_num)

/-- C3.  Neutral-input invariant: with the default calibration constants and
`data_quality = 1`, `fuse(50, 50, 50, 50)` gives `p_up` exactly `0.5` (hence
within any small epsilon of `0.5`) and the action is the Hold label
`현상 유지`: the geometric-mean rescaling `p_product ** 0.25`, not the raw
product `0.0625`, is what meets the `p_up ≥ 0.40` Hold threshold. -/
theorem C3_neutral_input_invariant :
    (fuse 50 (some 50) 50 50).p_up = 1/2 ∧
      (fuse 50 (some 50) 50 50).action = Action.hold ∧
      actionLabel (fuse 50 (some 50) 50 50).action = "현상 유지" := by
  have hact : (fuse 50 (some 50) 50 50).action = Action.hold := by
    rw [fuse_def, cp_action, if_neg (by norm_num), p_up_neutral]
    exact decisionGrade_hold (by norm_num) (by norm_num)
  refine ⟨?_, hact, ?_⟩
  · rw [fuse_def, cp_p_up]
    exact p_up_neutral
  · rw [hact]
    rfl

/-- C1 counterexample.  With the default calibration constants the fallback
does NOT reproduce `fuse(M, S, S, T)`: the fallback sets `pI := pS =
sigmoid((S-50)/kS)` with `kS = 10`, while an explicit industry score `I = S`
is calibrated with `kI = 12`.  At `M = 50, S = 100, T = 50` the two `pI`
values are `sigmoid(5) ≈ 0.9933` versus `sigmoid(25/6) ≈ 0.9847`. -/
theorem C1_counterexample :
    (fuse 50 none 100 50).breakdown.pI ≠ (fuse 50 (some 100) 100 50).breakdown.pI := by
  have h1 : (fuse 50 none 100 50).breakdown.pI = sigmoid 5 := by
    rw [fuse_def, cp_pI]
    show pS 100 10 = sigmoid 5
    unfold pS
    norm_num
  have h2 : (fuse 50 (some 100) 100 50).breakdown.pI = sigmoid (25/6) := by
    rw [fuse_def, cp_pI]
    show sigmoid ((100 - 50) / 12) = sigmoid (25/6)
    norm_num
  rw [h1, h2]
  exact ne_of_gt (sigmoid_lt_sigmoid (by norm_num) (by norm_num) (by norm_num) (by norm_num)
    (by norm_num))

/-- C1 amended.  The fallback substitutes the stock PROBABILITY `pS`
(calibrated with `kS`) for the missing industry probability, so
`fuse(M, None, S, T)` produces the same `pI`, the same `p_up`, action and
confidence as `fuse(M, S, S, T)` exactly when industry and stock share the
calibration constant (`kI = kS = k`); the fallback call additionally records
the `industry_score_fallback` flag.  (With the default constants
`kI = 12 ≠ kS = 10` the equivalence fails; see the counterexample.) -/
theorem C1_industry_fallback_equivalence (M S T q kM kT k : ℝ) :
    (computeProbabilities M none S T q kM k k kT).breakdown.pI =
        (computeProbabilities M (some S) S T q kM k k kT).breakdown.pI ∧
      (computeProbabilities M none S T q kM k k kT).p_up =
        (computeProbabilities M (some S) S T q kM k k kT).p_up ∧
      (computeProbabilities M none S T q kM k k kT).action =
        (computeProbabilities M (some S) S T q kM k k kT).action ∧
      (computeProbabilities M none S T q kM k k kT).confidence =
        (computeProbabilities M (some S) S T q kM k k kT).confidence ∧
      FusionFlag.industryScoreFallback ∈
        (computeProbabilities M none S T q kM k k kT).breakdown.flags := by
  refine ⟨rfl, rfl, rfl, rfl, ?_⟩
  rw [cp_flags]
  simp

/- Evaluation of the fused probability at the saturated corners
(100,100,100,100) and (0,0,0,0). -/

lemma pM_100 : pM 100 12 = sigmoid (25/6) := by
  unfold pM
  norm_num

lemma gM_100 : gM 100 12 = 1 := by
  unfold gM
  apply clamp_eq_hi _ (by norm_num)
  rw [le_div_iff₀ (by norm_num), pM_100]
  linarith [sigmoid_256_ge]

lemma pI_100 : pI (some 100) 100 12 10 = sigmoid (25/6) := by
  show sigmoid ((100 - 50) / 12) = sigmoid (25/6)
  norm_num

lemma pIgM_100 : pI_given_M 100 (some 100) 100 12 12 10 = sigmoid (25/6) := by
  unfold pI_given_M
  rw [gM_100, gateCond_one, pI_100]

lemma gI_100 : gI 100 (some 100) 100 12 12 10 = 1 := by
  unfold gI
  rw [pIgM_100]
  apply clamp_eq_hi _ (by norm_num)
  rw [le_div_iff₀ (by norm_num)]
  linarith [sigmoid_256_ge]

lemma pSgI_100 : pS_given_I 100 (some 100) 100 12 12 10 = sigmoid 5 := by
  unfold pS_given_I
  rw [gI_100, gateCond_one]
  unfold pS
  norm_num

lemma gT_100 : gT 100 12 = 1 := by
  unfold gT
  apply clamp_eq_hi _ (by norm_num)
  rw [le_div_iff₀ (by norm_num), pM_100]
  linarith [sigmoid_256_ge]

lemma pTadj_100 : pT_adj 100 100 12 10 = sigmoid 5 := by
  unfold pT_adj
  rw [gT_100, gateCond_one]
  unfold pT
  norm_num

lemma p_product_100_ge :
    (0.95 : ℝ)^(4:ℕ) ≤ p_product 100 (some 100) 100 100 12 12 10 10 := by
  unfold p_product
  rw [pM_100, pIgM_100, pSgI_100, pTadj_100]
  have hb := sigmoid_256_ge
  have hc := sigmoid_five_ge
  have h1 : (63/64 : ℝ) * (63/64) ≤ sigmoid (25/6) * sigmoid (25/6) :=
    mul_le_mul hb hb (by norm_num) (sigmoid_nonneg _)
  have h2 : (140/141 : ℝ) * (140/141) ≤ sigmoid 5 * sigmoid 5 :=
    mul_le_mul hc hc (by norm_num) (sigmoid_nonneg _)
  calc (0.95 : ℝ)^(4:ℕ) ≤ (63/64 * (63/64)) * (140/141 * (140/141)) := by norm_num
  _ ≤ (sigmoid (25/6) * sigmoid (25/6)) * (sigmoid 5 * sigmoid 5) :=
      mul_le_mul h1 h2 (by norm_num)
        (mul_nonneg (sigmoid_nonneg _) (sigmoid_nonneg _))
  _ = sigmoid (25/6) * sigmoid (25/6) * sigmoid 5 * sigmoid 5 := by ring

lemma p_up_100_ge : (0.95 : ℝ) ≤ p_up 100 (some 100) 100 100 12 12 10 10 := by
  unfold p_up
  have h := Real.rpow_le_rpow (by positivity) p_product_100_ge
    (by norm_num : (0:ℝ) ≤ 0.25)
  rw [show (0.25 : ℝ) = (((4:ℕ) : ℝ))⁻¹ by norm_num] at h ⊢
  rwa [Real.pow_rpow_inv_natCast (by norm_num) (by norm_num)] at h

lemma pM_0 : pM 0 12 = sigmoid (-(25/6)) := by
  unfold pM
  norm_num

lemma gM_0 : gM 0 12 = 0 := by
  unfold gM
  apply clamp_eq_lo
  rw [div_le_iff₀ (by norm_num), pM_0]
  linarith [sigmoid_neg256_le]

lemma pIgM_0 : pI_given_M 0 (some 0) 0 12 12 10 = 1/2 := by
  unfold pI_given_M
  rw [gM_0, gateCond_zero]

lemma gI_0 : gI 0 (some 0) 0 12 12 10 = 0.4 := by
  unfold gI
  rw [pIgM_0, show ((1:ℝ)/2 - 0.40) / 0.25 = 0.4 by norm_num]
  exact clamp_eq_self (by norm_num) (by norm_num)

lemma pS_0 : pS 0 10 = sigmoid (-5) := by
  unfold pS
  norm_num

lemma pSgI_0 : pS_given_I 0 (some 0) 0 12 12 10 = 0.3 + 0.4 * sigmoid (-5) := by
  unfold pS_given_I
  rw [gI_0, pS_0]
  unfold gateCond
  ring

lemma gT_0 : gT 0 12 = 0.2 := by
  unfold gT
  apply clamp_eq_lo
  rw [div_le_iff₀ (by norm_num), pM_0]
  linarith [sigmoid_neg256_le]

lemma pT_0 : pT 0 10 = sigmoid (-5) := by
  unfold pT
  norm_num

lemma pTadj_0 : pT_adj 0 0 12 10 = 0.4 + 0.2 * sigmoid (-5) := by
  unfold pT_adj
  rw [gT_0, pT_0]
  unfold gateCond
  ring

lemma p_product_0_ge :
    (0.1 : ℝ)^(4:ℕ) ≤ p_product 0 (some 0) 0 0 12 12 10 10 := by
  unfold p_product
  rw [pM_0, pIgM_0, pSgI_0, pTadj_0]
  have h2 := sigmoid_neg256_ge
  have h4 := sigmoid_nonneg (-5 : ℝ)
  have s1 : (1/67 : ℝ) * (1/2) ≤ sigmoid (-(25/6)) * (1/2) :=
    mul_le_mul_of_nonneg_right h2 (by norm_num)
  have s2 : ((1/67 : ℝ) * (1/2)) * 0.3 ≤ (sigmoid (-(25/6)) * (1/2)) * (0.3 + 0.4 * sigmoid (-5)) :=
    mul_le_mul s1 (by linarith) (by norm_num)
      (mul_nonneg (sigmoid_nonneg _) (by norm_num))
  have s3 : (((1/67 : ℝ) * (1/2)) * 0.3) * 0.4 ≤
      ((sigmoid (-(25/6)) * (1/2)) * (0.3 + 0.4 * sigmoid (-5))) * (0.4 + 0.2 * sigmoid (-5)) :=
    mul_le_mul s2 (by linarith) (by norm_num)
      (mul_nonneg (mul_nonneg (sigmoid_nonneg _) (by norm_num)) (by linarith))
  calc (0.1 : ℝ)^(4:ℕ) ≤ ((1/67 : ℝ) * (1/2)) * 0.3 * 0.4 := by norm_num
  _ ≤ _ := s3

lemma p_product_0_le :
    p_product 0 (some 0) 0 0 12 12 10 10 ≤ (0.18 : ℝ)^(4:ℕ) := by
  unfold p_product
  rw [pM_0, pIgM_0, pSgI_0, pTadj_0]
  have h1 := sigmoid_neg256_le
  have h3 := sigmoid_neg5_le
  have h4 := sigmoid_nonneg (-5 : ℝ)
  have h5 := sigmoid_nonneg (-(25/6) : ℝ)
  have s1 : sigmoid (-(25/6)) * (1/2) ≤ (1/64 : ℝ) * (1/2) :=
    mul_le_mul_of_nonneg_right h1 (by norm_num)
  have s2 : (sigmoid (-(25/6)) * (1/2)) * (0.3 + 0.4 * sigmoid (-5)) ≤
      ((1/64 : ℝ) * (1/2)) * (0.3 + 0.4 * (1/141)) :=
    mul_le_mul s1 (by linarith) (by linarith)
      (by norm_num)
  have s3 : ((sigmoid (-(25/6)) * (1/2)) * (0.3 + 0.4 * sigmoid (-5))) * (0.4 + 0.2 * sigmoid (-5)) ≤
      (((1/64 : ℝ) * (1/2)) * (0.3 + 0.4 * (1/141))) * (0.4 + 0.2 * (1/141)) :=
    mul_le_mul s2 (by linarith) (by linarith)
      (by norm_num)
  calc sigmoid (-(25/6)) * (1/2) * (0.3 + 0.4 * sigmoid (-5)) * (0.4 + 0.2 * sigmoid (-5))
      ≤ (((1/64 : ℝ) * (1/2)) * (0.3 + 0.4 * (1/141))) * (0.4 + 0.2 * (1/141)) := s3
  _ ≤ (0.18 : ℝ)^(4:ℕ) := by norm_num

lemma p_up_0_ge : (0.1 : ℝ) ≤ p_up 0 (some 0) 0 0 12 12 10 10 := by
  unfold p_up
  have h := Real.rpow_le_rpow (by positivity) p_product_0_ge
    (by norm_num : (0:ℝ) ≤ 0.25)
  rw [show (0.25 : ℝ) = (((4:ℕ) : ℝ))⁻¹ by norm_num] at h ⊢
  rwa [Real.pow_rpow_inv_natCast (by norm_num) (by norm_num)] at h

lemma p_up_0_le : p_up 0 (some 0) 0 0 12 12 10 10 ≤ 0.18 := by
  unfold p_up
  have hnn : (0:ℝ) ≤ p_product 0 (some 0) 0 0 12 12 10 10 :=
    le_trans (by norm_num) p_product_0_ge
  have h := Real.rpow_le_rpow hnn p_product_0_le (by norm_num : (0:ℝ) ≤ 0.25)
  rw [show (0.25 : ℝ) = (((4:ℕ) : ℝ))⁻¹ by norm_num] at h ⊢
  rwa [Real.pow_rpow_inv_natCast (by norm_num) (by norm_num)] at h

/-- C7.  Saturation bound: with default constants, `fuse(100,100,100,100)`
gives `p_up ≥ 0.95` (the Aggressive-Buy threshold; the exact value is
≈ 0.989) and action `적극적 매수`; `fuse(0,0,0,0)` gives `p_up ≤ 0.18`
(the exact value is ≈ 0.175, far below every hold/buy threshold) and action
`적극적 매도` — the grade from the thresholds alone is Sell, and the `M < 25`
risk-off override shifts it to Aggressive Sell. -/
theorem C7_saturation_bound :
    0.95 ≤ (fuse 100 (some 100) 100 100).p_up ∧
      (fuse 100 (some 100) 100 100).action = Action.aggressiveBuy ∧
      (fuse 0 (some 0) 0 0).p_up ≤ 0.18 ∧
      (fuse 0 (some 0) 0 0).action = Action.aggressiveSell := by
  refine ⟨?_, ?_, ?_, ?_⟩
  · rw [fuse_def, cp_p_up]
    exact p_up_100_ge
  · rw [fuse_def, cp_action, if_neg (by norm_num)]
    exact decisionGrade_aggressiveBuy p_up_100_ge
  · rw [fuse_def, cp_p_up]
    exact p_up_0_le
  · rw [fuse_def, cp_action, if_pos (by norm_num)]
    rw [decisionGrade_sell (le_trans (by norm_num) p_up_0_ge) (lt_of_le_of_lt p_up_0_le (by norm_num))]
    rfl

/- Evaluation at the monotonicity counterexample (I = 0, S = 100, T = 50,
market raised from 50 to 100). -/

lemma gM_50 : gM 50 12 = 0.5 := by
  unfold gM
  rw [pM_neutral, show ((1:ℝ)/2 - 0.35) / 0.30 = 0.5 by norm_num]
  exact clamp_eq_self (by norm_num) (by norm_num)

lemma pI_zero_score : pI (some 0) 100 12 10 = sigmoid (-(25/6)) := by
  show sigmoid ((0 - 50) / 12) = sigmoid (-(25/6))
  norm_num

lemma pIgM_A : pI_given_M 50 (some 0) 100 12 12 10 = 0.25 + sigmoid (-(25/6)) / 2 := by
  unfold pI_given_M
  rw [gM_50, pI_zero_score]
  unfold gateCond
  ring

lemma gI_A : gI 50 (some 0) 100 12 12 10 = 0 := by
  unfold gI
  rw [pIgM_A]
  apply clamp_eq_lo
  rw [div_le_iff₀ (by norm_num)]
  linarith [sigmoid_neg256_le]

lemma pSgI_A : pS_given_I 50 (some 0) 100 12 12 10 = 1/2 := by
  unfold pS_given_I
  rw [gI_A, gateCond_zero]

lemma pTadj_A : pT_adj 50 50 12 10 = 1/2 := by
  unfold pT_adj
  rw [pT_neutral, gateCond_half]

lemma p_product_A :
    p_product 50 (some 0) 100 50 12 12 10 10 = (0.25 + sigmoid (-(25/6)) / 2) / 8 := by
  unfold p_product
  rw [pM_neutral, pIgM_A, pSgI_A, pTadj_A]
  ring

lemma pIgM_B : pI_given_M 100 (some 0) 100 12 12 10 = sigmoid (-(25/6)) := by
  unfold pI_given_M
  rw [gM_100, gateCond_one, pI_zero_score]

lemma gI_B : gI 100 (some 0) 100 12 12 10 = 0 := by
  unfold gI
  rw [pIgM_B]
  apply clamp_eq_lo
  rw [div_le_iff₀ (by norm_num)]
  linarith [sigmoid_neg256_le]

lemma pSgI_B : pS_given_I 100 (some 0) 100 12 12 10 = 1/2 := by
  unfold pS_given_I
  rw [gI_B, gateCond_zero]

lemma pTadj_B : pT_adj 100 50 12 10 = 1/2 := by
  unfold pT_adj
  rw [pT_neutral, gateCond_half]

lemma p_product_B :
    p_product 100 (some 0) 100 50 12 12 10 10 =
      sigmoid (25/6) * sigmoid (-(25/6)) / 4 := by
  unfold p_product
  rw [pM_100, pIgM_B, pSgI_B, pTadj_B]
  ring

lemma p_product_B_lt_A :
    p_product 100 (some 0) 100 50 12 12 10 10 <
      p_product 50 (some 0) 100 50 12 12 10 10 := by
  rw [p_product_A, p_product_B]
  have h1 : sigmoid (25/6) * sigmoid (-(25/6)) ≤ sigmoid (-(25/6)) :=
    mul_le_of_le_one_left (sigmoid_nonneg _) (sigmoid_le_one _)
  have h2 := sigmoid_neg256_le
  have h3 := sigmoid_nonneg (-(25/6) : ℝ)
  linarith

/-- C2 counterexample.  `p_up` is NOT globally non-decreasing in the market
score: at `I = 0, S = 100, T = 50` (default constants, data quality 1),
raising `M` from 50 to 100 strictly LOWERS `p_up` (≈ 0.4236 down to ≈ 0.2476):
a stronger market opens the `gM` gate, which lets the strongly bearish
industry signal through instead of pinning it at the neutral 0.5. -/
theorem C2_counterexample :
    (50 : ℝ) ≤ 100 ∧
      (fuse 100 (some 0) 100 50).p_up < (fuse 50 (some 0) 100 50).p_up := by
  refine ⟨by norm_num, ?_⟩
  rw [fuse_def, fuse_def, cp_p_up, cp_p_up]
  unfold p_up
  apply Real.rpow_lt_rpow ?_ p_product_B_lt_A (by norm_num)
  rw [p_product_B]
  have h3 := sigmoid_nonneg (-(25/6) : ℝ)
  have h4 := sigmoid_nonneg ((25:ℝ)/6)
  positivity

/- Generic bounds on the intermediate quantities, used for the amended
monotonicity claim and for the range claim. -/

lemma pM_nonneg (M kM : ℝ) : 0 ≤ pM M kM := sigmoid_nonneg _

lemma pM_le_one (M kM : ℝ) : pM M kM ≤ 1 := sigmoid_le_one _

lemma pS_nonneg (S kS : ℝ) : 0 ≤ pS S kS := sigmoid_nonneg _

lemma pS_le_one (S kS : ℝ) : pS S kS ≤ 1 := sigmoid_le_one _

lemma pT_nonneg (T kT : ℝ) : 0 ≤ pT T kT := sigmoid_nonneg _

lemma pT_le_one (T kT : ℝ) : pT T kT ≤ 1 := sigmoid_le_one _

lemma pI_nonneg (I : Option ℝ) (S kI kS : ℝ) : 0 ≤ pI I S kI kS := by
  cases I with
  | none => exact sigmoid_nonneg _
  | some i => exact sigmoid_nonneg _

lemma pI_le_one (I : Option ℝ) (S kI kS : ℝ) : pI I S kI kS ≤ 1 := by
  cases I with
  | none => exact sigmoid_le_one _
  | some i => exact sigmoid_le_one _

lemma gM_nonneg (M kM : ℝ) : 0 ≤ gM M kM := le_clamp _ _ _

lemma gM_le_one (M kM : ℝ) : gM M kM ≤ 1 := clamp_le _ (by norm_num)

lemma gI_nonneg (M : ℝ) (I : Option ℝ) (S kM kI kS : ℝ) : 0 ≤ gI M I S kM kI kS :=
  le_clamp _ _ _

lemma gI_le_one (M : ℝ) (I : Option ℝ) (S kM kI kS : ℝ) : gI M I S kM kI kS ≤ 1 :=
  clamp_le _ (by norm_num)

lemma gT_nonneg (M kM : ℝ) : 0 ≤ gT M kM :=
  le_trans (by norm_num) (le_clamp _ 0.2 1)

lemma gT_le_one (M kM : ℝ) : gT M kM ≤ 1 := clamp_le _ (by norm_num)

lemma pI_given_M_nonneg (M : ℝ) (I : Option ℝ) (S kM kI kS : ℝ) :
    0 ≤ pI_given_M M I S kM kI kS :=
  gateCond_nonneg (pI_nonneg _ _ _ _) (gM_nonneg _ _) (gM_le_one _ _)

lemma pI_given_M_le_one (M : ℝ) (I : Option ℝ) (S kM kI kS : ℝ) :
    pI_given_M M I S kM kI kS ≤ 1 :=
  gateCond_le_one (pI_le_one _ _ _ _) (gM_nonneg _ _) (gM_le_one _ _)

lemma pS_given_I_nonneg (M : ℝ) (I : Option ℝ) (S kM kI kS : ℝ) :
    0 ≤ pS_given_I M I S kM kI kS :=
  gateCond_nonneg (pS_nonneg _ _) (gI_nonneg _ _ _ _ _ _) (gI_le_one _ _ _ _ _ _)

lemma pS_given_I_le_one (M : ℝ) (I : Option ℝ) (S kM kI kS : ℝ) :
    pS_given_I M I S kM kI kS ≤ 1 :=
  gateCond_le_one (pS_le_one _ _) (gI_nonneg _ _ _ _ _ _) (gI_le_one _ _ _ _ _ _)

lemma pT_adj_nonneg (M T kM kT : ℝ) : 0 ≤ pT_adj M T kM kT :=
  gateCond_nonneg (pT_nonneg _ _) (gT_nonneg _ _) (gT_le_one _ _)

lemma pT_adj_le_one (M T kM kT : ℝ) : pT_adj M T kM kT ≤ 1 :=
  gateCond_le_one (pT_le_one _ _) (gT_nonneg _ _) (gT_le_one _ _)

lemma p_product_nonneg (M : ℝ) (I : Option ℝ) (S T kM kI kS kT : ℝ) :
    0 ≤ p_product M I S T kM kI kS kT :=
  mul_nonneg (mul_nonneg (mul_nonneg (pM_nonneg _ _) (pI_given_M_nonneg _ _ _ _ _ _))
    (pS_given_I_nonneg _ _ _ _ _ _)) (pT_adj_nonneg _ _ _ _)

lemma p_product_le_one (M : ℝ) (I : Option ℝ) (S T kM kI kS kT : ℝ) :
    p_product M I S T kM kI kS kT ≤ 1 := by
  unfold p_product
  have h1 : pM M kM * pI_given_M M I S kM kI kS ≤ 1 * 1 :=
    mul_le_mul (pM_le_one _ _) (pI_given_M_le_one _ _ _ _ _ _)
      (pI_given_M_nonneg _ _ _ _ _ _) (by norm_num)
  have h2 : pM M kM * pI_given_M M I S kM kI kS * pS_given_I M I S kM kI kS ≤ 1 * 1 :=
    mul_le_mul (by linarith) (pS_given_I_le_one _ _ _ _ _ _)
      (pS_given_I_nonneg _ _ _ _ _ _)
      (by norm_num)
  have h3 := mul_le_mul (le_of_eq (rfl :
      pM M kM * pI_given_M M I S kM kI kS * pS_given_I M I S kM kI kS =
      pM M kM * pI_given_M M I S kM kI kS * pS_given_I M I S kM kI kS))
    (pT_adj_le_one M T kM kT)
    (pT_adj_nonneg M T kM kT)
    (mul_nonneg (mul_nonneg (pM_nonneg _ _) (pI_given_M_nonneg _ _ _ _ _ _))
      (pS_given_I_nonneg _ _ _ _ _ _))
  calc pM M kM * pI_given_M M I S kM kI kS * pS_given_I M I S kM kI kS * pT_adj M T kM kT
      ≤ pM M kM * pI_given_M M I S kM kI kS * pS_given_I M I S kM kI kS * 1 := h3
  _ ≤ 1 := by linarith

/-- C2 amended.  Monotonicity in the market score holds once the other three
signals are at least neutral: if `I` (when present), `S` and `T` are all
`≥ 50`, then with default constants and `data_quality = 1` the final `p_up`
is non-decreasing in `M`.  (Without the restriction it fails — see the
counterexample — because the `gM`/`gI` gates let a below-neutral industry or
stock probability through as the market strengthens.) -/
theorem C2_monotone_in_market (M1 M2 : ℝ) (I : Option ℝ) (S T : ℝ)
    (hM : M1 ≤ M2) (hI : ∀ i, I = some i → (50:ℝ) ≤ i) (hS : 50 ≤ S) (hT : 50 ≤ T) :
    (fuse M1 I S T).p_up ≤ (fuse M2 I S T).p_up := by
  rw [fuse_def, fuse_def, cp_p_up, cp_p_up]
  have hpS : 1/2 ≤ pS S 10 := by
    show 1/2 ≤ sigmoid ((S - 50) / 10)
    exact sigmoid_half_le (div_nonneg (by linarith) (by norm_num))
  have hpT : 1/2 ≤ pT T 10 := by
    show 1/2 ≤ sigmoid ((T - 50) / 10)
    exact sigmoid_half_le (div_nonneg (by linarith) (by norm_num))
  have hpI : 1/2 ≤ pI I S 12 10 := by
    cases I with
    | none => exact hpS
    | some i =>
      have hi := hI i rfl
      show 1/2 ≤ sigmoid ((i - 50) / 12)
      exact sigmoid_half_le (div_nonneg (by linarith) (by norm_num))
  have hpM : pM M1 12 ≤ pM M2 12 := sigmoid_mono (by linarith)
  have hgM : gM M1 12 ≤ gM M2 12 := clamp_mono _ _ (by gcongr)
  have hpIgM : pI_given_M M1 I S 12 12 10 ≤ pI_given_M M2 I S 12 12 10 :=
    gateCond_mono_g hpI hgM
  have hgI : gI M1 I S 12 12 10 ≤ gI M2 I S 12 12 10 :=
    clamp_mono _ _ (by gcongr)
  have hpSgI : pS_given_I M1 I S 12 12 10 ≤ pS_given_I M2 I S 12 12 10 :=
    gateCond_mono_g hpS hgI
  have hgT : gT M1 12 ≤ gT M2 12 := clamp_mono _ _ (by gcongr)
  have hpTadj : pT_adj M1 T 12 10 ≤ pT_adj M2 T 12 10 :=
    gateCond_mono_g hpT hgT
  have hprod : p_product M1 I S T 12 12 10 10 ≤ p_product M2 I S T 12 12 10 10 := by
    unfold p_product
    have s1 : pM M1 12 * pI_given_M M1 I S 12 12 10 ≤
        pM M2 12 * pI_given_M M2 I S 12 12 10 :=
      mul_le_mul hpM hpIgM (pI_given_M_nonneg _ _ _ _ _ _) (pM_nonneg _ _)
    have s2 : pM M1 12 * pI_given_M M1 I S 12 12 10 * pS_given_I M1 I S 12 12 10 ≤
        pM M2 12 * pI_given_M M2 I S 12 12 10 * pS_given_I M2 I S 12 12 10 :=
      mul_le_mul s1 hpSgI (pS_given_I_nonneg _ _ _ _ _ _)
        (mul_nonneg (pM_nonneg _ _) (pI_given_M_nonneg _ _ _ _ _ _))
    exact mul_le_mul s2 hpTadj (pT_adj_nonneg _ _ _ _)
      (mul_nonneg (mul_nonneg (pM_nonneg _ _) (pI_given_M_nonneg _ _ _ _ _ _))
        (pS_given_I_nonneg _ _ _ _ _ _))
  unfold p_up
  exact Real.rpow_le_rpow (p_product_nonneg _ _ _ _ _ _ _ _) hprod (by norm_num)

/-- Witness for the amended C2 theorem at M1 = 50 ≤ M2 = 60, I = 60, S = 70,
T = 80. -/
theorem C2_monotone_witness :
    (fuse 50 (some 60) 70 80).p_up ≤ (fuse 60 (some 60) 70 80).p_up :=
  C2_monotone_in_market 50 60 (some 60) 70 80 (by norm_num)
    (by intro i h; injection h with h2; subst h2; norm_num) (by norm_num) (by norm_num)

/-- Every action value is on the five-grade list. -/
lemma action_mem_gradeOrder (a : Action) : a ∈ gradeOrder := by
  cases a <;> decide

/-- C4.  Risk-off override: whenever `M < 25`, the returned action sits
exactly one position further down the ordered list
`[적극적 매수, 매수, 현상 유지, 매도, 적극적 매도]` than the action obtained
by discretizing `p_up` (capped at the last position, Aggressive Sell), and the
breakdown flags contain the `risk_off_adjusted: old->new` entry; whenever
`M ≥ 25` this pass returns the discretized action unchanged and records no
risk-off flag. -/
theorem C4_risk_off_override (M : ℝ) (I : Option ℝ) (S T q kM kI kS kT : ℝ) :
    (M < 25 →
      gradeOrder.indexOf (computeProbabilities M I S T q kM kI kS kT).action =
          min (gradeOrder.indexOf (decisionGrade (p_up M I S T kM kI kS kT)) + 1) 4 ∧
        FusionFlag.riskOffAdjusted (decisionGrade (p_up M I S T kM kI kS kT))
            ((computeProbabilities M I S T q kM kI kS kT).action) ∈
          (computeProbabilities M I S T q kM kI kS kT).breakdown.flags) ∧
    (25 ≤ M →
      (computeProbabilities M I S T q kM kI kS kT).action =
          decisionGrade (p_up M I S T kM kI kS kT) ∧
        ∀ a b : Action, FusionFlag.riskOffAdjusted a b ∉
          (computeProbabilities M I S T q kM kI kS kT).breakdown.flags) := by
  constructor
  · intro hM
    have hact : (computeProbabilities M I S T q kM kI kS kT).action =
        riskOffStep (decisionGrade (p_up M I S T kM kI kS kT)) := by
      rw [cp_action, if_pos hM]
    constructor
    · rw [hact]
      generalize decisionGrade (p_up M I S T kM kI kS kT) = a
      cases a <;> decide
    · rw [hact, cp_flags, if_pos hM]
      simp
  · intro hM
    have hn : ¬ M < 25 := not_lt.mpr hM
    constructor
    · rw [cp_action, if_neg hn]
    · intro a b
      rw [cp_flags, if_neg hn]
      cases I with
      | none => simp
      | some i =>
        by_cases hc : i < 30 ∧ 75 < S
        · simp [hc]
        · simp [hc]

/-- Witness for C4: at `M = 10` the override applies (one step down plus the
flag); at `M = 50` the discretized action is returned unchanged. -/
theorem C4_risk_off_witness :
    (gradeOrder.indexOf (computeProbabilities 10 (some 50) 50 50 1 12 12 10 10).action =
        min (gradeOrder.indexOf (decisionGrade (p_up 10 (some 50) 50 50 12 12 10 10)) + 1) 4 ∧
      FusionFlag.riskOffAdjusted (decisionGrade (p_up 10 (some 50) 50 50 12 12 10 10))
          ((computeProbabilities 10 (some 50) 50 50 1 12 12 10 10).action) ∈
        (computeProbabilities 10 (some 50) 50 50 1 12 12 10 10).breakdown.flags) ∧
    ((computeProbabilities 50 (some 50) 50 50 1 12 12 10 10).action =
        decisionGrade (p_up 50 (some 50) 50 50 12 12 10 10) ∧
      ∀ a b : Action, FusionFlag.riskOffAdjusted a b ∉
        (computeProbabilities 50 (some 50) 50 50 1 12 12 10 10).breakdown.flags) :=
  ⟨(C4_risk_off_override 10 (some 50) 50 50 1 12 12 10 10).1 (by norm_num),
   (C4_risk_off_override 50 (some 50) 50 50 1 12 12 10 10).2 (by norm_num)⟩

/- Range facts for the confidence computation. -/

lemma one_sub_clamp01_nonneg (v : ℝ) : 0 ≤ 1 - clamp v 0 1 := by
  linarith [clamp_le v (show (0:ℝ) ≤ 1 by norm_num)]

lemma one_sub_clamp01_le_one (v : ℝ) : 1 - clamp v 0 1 ≤ 1 := by
  linarith [le_clamp v 0 1]

lemma confAgree_nonneg (M : ℝ) (I : Option ℝ) (S T : ℝ) : 0 ≤ confAgree M I S T :=
  one_sub_clamp01_nonneg _

lemma confAgree_le_one (M : ℝ) (I : Option ℝ) (S T : ℝ) : confAgree M I S T ≤ 1 :=
  one_sub_clamp01_le_one _

/-- C9.  Totality and output range: for all real inputs (scores even outside
[0,100]), any optional industry score and any `conf_quality` in [0,1], the
fusion with the default (nonzero) constants is a total function whose `p_up`,
`confidence`, and every intermediate probability and gate in the breakdown
lie in [0,1], and whose action is one of the five grade labels. -/
theorem C9_output_ranges (M : ℝ) (I : Option ℝ) (S T q : ℝ)
    (hq0 : 0 ≤ q) (hq1 : q ≤ 1) :
    (computeProbabilities M I S T q 12 12 10 10).p_up ∈ Set.Icc (0:ℝ) 1 ∧
      (computeProbabilities M I S T q 12 12 10 10).confidence ∈ Set.Icc (0:ℝ) 1 ∧
      (computeProbabilities M I S T q 12 12 10 10).breakdown.pM ∈ Set.Icc (0:ℝ) 1 ∧
      (computeProbabilities M I S T q 12 12 10 10).breakdown.pI ∈ Set.Icc (0:ℝ) 1 ∧
      (computeProbabilities M I S T q 12 12 10 10).breakdown.pS ∈ Set.Icc (0:ℝ) 1 ∧
      (computeProbabilities M I S T q 12 12 10 10).breakdown.pT ∈ Set.Icc (0:ℝ) 1 ∧
      (computeProbabilities M I S T q 12 12 10 10).breakdown.pI_given_M ∈ Set.Icc (0:ℝ) 1 ∧
      (computeProbabilities M I S T q 12 12 10 10).breakdown.pS_given_I ∈ Set.Icc (0:ℝ) 1 ∧
      (computeProbabilities M I S T q 12 12 10 10).breakdown.pT_adj ∈ Set.Icc (0:ℝ) 1 ∧
      (computeProbabilities M I S T q 12 12 10 10).breakdown.gM ∈ Set.Icc (0:ℝ) 1 ∧
      (computeProbabilities M I S T q 12 12 10 10).breakdown.gI ∈ Set.Icc (0:ℝ) 1 ∧
      (computeProbabilities M I S T q 12 12 10 10).breakdown.gT ∈ Set.Icc (0:ℝ) 1 ∧
      (computeProbabilities M I S T q 12 12 10 10).breakdown.p_product ∈ Set.Icc (0:ℝ) 1 ∧
      (computeProbabilities M I S T q 12 12 10 10).action ∈ gradeOrder := by
  refine ⟨?_, ?_, ?_, ?_, ?_, ?_, ?_, ?_, ?_, ?_, ?_, ?_, ?_, ?_⟩
  · exact Set.mem_Icc.mpr ⟨Real.rpow_nonneg (p_product_nonneg _ _ _ _ _ _ _ _) _,
      Real.rpow_le_one (p_product_nonneg _ _ _ _ _ _ _ _)
        (p_product_le_one _ _ _ _ _ _ _ _) (by norm_num)⟩
  · refine Set.mem_Icc.mpr ⟨?_, ?_⟩
    · show 0 ≤ confidence M I S T q
      unfold confidence
      linarith [confAgree_nonneg M I S T]
    · show confidence M I S T q ≤ 1
      unfold confidence
      linarith [confAgree_le_one M I S T]
  · exact Set.mem_Icc.mpr ⟨pM_nonneg _ _, pM_le_one _ _⟩
  · exact Set.mem_Icc.mpr ⟨pI_nonneg _ _ _ _, pI_le_one _ _ _ _⟩
  · exact Set.mem_Icc.mpr ⟨pS_nonneg _ _, pS_le_one _ _⟩
  · exact Set.mem_Icc.mpr ⟨pT_nonneg _ _, pT_le_one _ _⟩
  · exact Set.mem_Icc.mpr ⟨pI_given_M_nonneg _ _ _ _ _ _, pI_given_M_le_one _ _ _ _ _ _⟩
  · exact Set.mem_Icc.mpr ⟨pS_given_I_nonneg _ _ _ _ _ _, pS_given_I_le_one _ _ _ _ _ _⟩
  · exact Set.mem_Icc.mpr ⟨pT_adj_nonneg _ _ _ _, pT_adj_le_one _ _ _ _⟩
  · exact Set.mem_Icc.mpr ⟨gM_nonneg _ _, gM_le_one _ _⟩
  · exact Set.mem_Icc.mpr ⟨gI_nonneg _ _ _ _ _ _, gI_le_one _ _ _ _ _ _⟩
  · exact Set.mem_Icc.mpr ⟨gT_nonneg _ _, gT_le_one _ _⟩
  · exact Set.mem_Icc.mpr ⟨p_product_nonneg _ _ _ _ _ _ _ _, p_product_le_one _ _ _ _ _ _ _ _⟩
  · exact action_mem_gradeOrder _

/-- Witness for C9 at M = 1, I absent, S = 2, T = 3, q = 1 (scores far outside
the usual band are fine). -/
theorem C9_output_ranges_witness :
    (computeProbabilities 1 none 2 3 1 12 12 10 10).p_up ∈ Set.Icc (0:ℝ) 1 ∧
      (computeProbabilities 1 none 2 3 1 12 12 10 10).confidence ∈ Set.Icc (0:ℝ) 1 ∧
      (computeProbabilities 1 none 2 3 1 12 12 10 10).breakdown.pM ∈ Set.Icc (0:ℝ) 1 ∧
      (computeProbabilities 1 none 2 3 1 12 12 10 10).breakdown.pI ∈ Set.Icc (0:ℝ) 1 ∧
      (computeProbabilities 1 none 2 3 1 12 12 10 10).breakdown.pS ∈ Set.Icc (0:ℝ) 1 ∧
      (computeProbabilities 1 none 2 3 1 12 12 10 10).breakdown.pT ∈ Set.Icc (0:ℝ) 1 ∧
      (computeProbabilities 1 none 2 3 1 12 12 10 10).breakdown.pI_given_M ∈ Set.Icc (0:ℝ) 1 ∧
      (computeProbabilities 1 none 2 3 1 12 12 10 10).breakdown.pS_given_I ∈ Set.Icc (0:ℝ) 1 ∧
      (computeProbabilities 1 none 2 3 1 12 12 10 10).breakdown.pT_adj ∈ Set.Icc (0:ℝ) 1 ∧
      (computeProbabilities 1 none 2 3 1 12 12 10 10).breakdown.gM ∈ Set.Icc (0:ℝ) 1 ∧
      (computeProbabilities 1 none 2 3 1 12 12 10 10).breakdown.gI ∈ Set.Icc (0:ℝ) 1 ∧
      (computeProbabilities 1 none 2 3 1 12 12 10 10).breakdown.gT ∈ Set.Icc (0:ℝ) 1 ∧
      (computeProbabilities 1 none 2 3 1 12 12 10 10).breakdown.p_product ∈ Set.Icc (0:ℝ) 1 ∧
      (computeProbabilities 1 none 2 3 1 12 12 10 10).action ∈ gradeOrder :=
  C9_output_ranges 1 none 2 3 1 (by norm_num) (by norm_num)

/- Error model for a zero calibration constant (claim C5). -/

/-- The failure raised inside `compute_probabilities` when a calibration
constant is zero: the Python float division `(score - 50.0) / k` raises
`ZeroDivisionError` (lines 46-52 of `src/utils/score_fusion.py`). -/
inductive FusionError where
  | zeroDivision
deriving DecidableEq

/-- `compute_probabilities` as a fallible computation.  The function body has
no `try/except` of its own, so a zero constant aborts it: each calibration
division guards its constant in source evaluation order (`kM` at line 46,
`kS` line 47, `kT` line 48, and `kI` at line 52 only when an industry score
is present); on success the result is exactly `computeProbabilities`. -/
noncomputable def computeProbabilitiesE (M : ℝ) (I : Option ℝ) (S T q kM kI kS kT : ℝ) :
    Except FusionError FusionResult :=
  if kM = 0 then .error .zeroDivision
  else if kS = 0 then .error .zeroDivision
  else if kT = 0 then .error .zeroDivision
  else if I.isSome ∧ kI = 0 then .error .zeroDivision
  else .ok (computeProbabilities M I S T q kM kI kS kT)

/-- The outcome reported by the consuming tool `DecisionFusionTool._run`
(`src/agent_engine/tools.py`): on success, the fusion result; on any raised
exception, its fail-safe block reports `Final Action: analysis_failed`,
`Confidence: 0.0` and a `fusion_error` flag (the source renders this into a
text block; the structured content is modelled). -/
inductive ToolOutcome where
  | ok (r : FusionResult)
  | failed (action : String) (confidence : ℝ) (flags : List String)

/-- The `try/except` of `DecisionFusionTool._run` around the call to
`compute_probabilities`. -/
noncomputable def runDecisionFusion (r : Except FusionError FusionResult) : ToolOutcome :=
  match r with
  | .ok x => .ok x
  | .error _ => .failed "analysis_failed" 0 ["fusion_error"]

/-- C5 counterexample.  `compute_probabilities` itself does NOT surface a
sentinel on a computation failure: with `kM = 0` it raises the division error
(modelled as `Except.error`) instead of returning any result — there is no
`try/except` inside the function. -/
theorem C5_counterexample :
    computeProbabilitiesE 50 none 50 50 1 0 12 10 10 =
      Except.error FusionError.zeroDivision := by
  unfold computeProbabilitiesE
  rw [if_pos rfl]

/-- C5 amended.  The raw fusion function propagates the division error; the
sentinel behaviour the claim describes lives in its caller: the
`DecisionFusionTool` wrapper catches the failure and surfaces the distinct
action `analysis_failed` — which is none of the five normal labels — with
zero confidence and an explanatory `fusion_error` flag, never a default
numeric outcome. -/
theorem C5_failure_sentinel (M : ℝ) (I : Option ℝ) (S T q kI kS kT : ℝ) :
    computeProbabilitiesE M I S T q 0 kI kS kT =
        Except.error FusionError.zeroDivision ∧
      runDecisionFusion (computeProbabilitiesE M I S T q 0 kI kS kT) =
        ToolOutcome.failed "analysis_failed" 0 ["fusion_error"] ∧
      ∀ a : Action, actionLabel a ≠ "analysis_failed" := by
  have h : computeProbabilitiesE M I S T q 0 kI kS kT =
      Except.error FusionError.zeroDivision := by
    unfold computeProbabilitiesE
    rw [if_pos rfl]
  refine ⟨h, ?_, ?_⟩
  · rw [h]
    rfl
  · intro a
    cases a <;> decide

end ScoreFusion

namespace ProfileClassifier

/-- The semantic-flag vocabulary of `src/utils/profile_classifier.py`
(`generate_semantic_flags`, lines 98-216). -/
inductive SemFlag where
  | TREND_UP_STRONG
  | TREND_DOWN
  | RANGE_BOUND
  | MOMENTUM_SPIKE
  | SPIKE_UP
  | MOMENTUM_UP
  | MOMENTUM_DOWN
  | SPIKE_DOWN
  | TECH_EXTREME_OVERBOUGHT
  | TECH_OVERBOUGHT
  | TECH_EXTREME_OVERSOLD
  | TECH_OVERSOLD
  | VOLATILITY_HIGH
  | VOLATILITY_LOW
  | VALUATION_EXPENSIVE
  | VALUATION_CHEAP
  | QUALITY_STRONG
  | QUALITY_WEAK
  | MARKET_RISK_OFF
  | MARKET_RISK_ON
  | NEWS_POSITIVE_EVENT
  | NEWS_NEGATIVE_EVENT
  | NEWS_MIXED_OR_THIN
  | NEWS_LOW_RELEVANCE
  | NEUTRAL_SIGNAL
deriving DecidableEq

/-- One news item as seen by the flag generator.  `relevance` is the value of
`calculate_news_relevance_score` for the item — that score mixes keyword
matching with the wall-clock recency of the article (`datetime.now`), so its
numeric value is taken as an input; `posCount`/`negCount` are the positive
and negative sentiment-keyword hits counted in the item's title
(lines 188-196). -/
structure NewsItem where
  relevance : ℚ
  posCount : ℕ
  negCount : ℕ
deriving DecidableEq

/-- The top news item: the source sorts the scored list by relevance
descending with Python's stable sort and takes element 0 (lines 174-181) —
equivalently, the earliest item of maximal relevance. -/
def topScored (hd : NewsItem) (tl : List NewsItem) : NewsItem :=
  tl.foldl (fun best n => if best.relevance < n.relevance then n else best) hd

/-- Inputs of `generate_semantic_flags` (signature at lines 78-91).  `pe`,
`roe` and `vix_or_vkospi` use `none` both for Python `None` and for NaN (the
source guards each with `is not None and not math.isnan(...)`); an empty
`news_list` covers both Python `None` and `[]` (the guard
`news_list and len(news_list) > 0`).  `ret_1w` is accepted by the source but
read by no rule. -/
structure FeatureSet where
  ret_1w : ℚ
  ret_1m : ℚ
  ret_3m : ℚ
  rsi : ℚ
  volatility : ℚ
  pe : Option ℚ
  roe : Option ℚ
  vix_or_vkospi : Option ℚ
  is_korean : Bool
  news_list : List NewsItem

/-- Trend rules, lines 101-106. -/
def trendFlags (f : FeatureSet) : List SemFlag :=
  if f.ret_3m > 20 then [.TREND_UP_STRONG]
  else if f.ret_3m < -15 then [.TREND_DOWN]
  else if -5 < f.ret_3m ∧ f.ret_3m < 5 then [.RANGE_BOUND]
  else []

/-- Momentum rules, lines 109-118. -/
def momentumFlags (f : FeatureSet) : List SemFlag :=
  if f.ret_1m > 15 then [.MOMENTUM_SPIKE, .SPIKE_UP]
  else if f.ret_1m > 5 then [.MOMENTUM_UP]
  else if f.ret_1m < -15 then [.MOMENTUM_DOWN, .SPIKE_DOWN]
  else if f.ret_1m < -5 then [.MOMENTUM_DOWN]
  else []

/-- RSI rules, lines 121-128. -/
def techFlags (f : FeatureSet) : List SemFlag :=
  if f.rsi ≥ 80 then [.TECH_EXTREME_OVERBOUGHT]
  else if f.rsi ≥ 70 then [.TECH_OVERBOUGHT]
  else if f.rsi ≤ 20 then [.TECH_EXTREME_OVERSOLD]
  else if f.rsi ≤ 30 then [.TECH_OVERSOLD]
  else []

/-- Volatility rules, lines 131-134. -/
def volatilityFlags (f : FeatureSet) : List SemFlag :=
  if f.volatility > 50 then [.VOLATILITY_HIGH]
  else if f.volatility < 20 then [.VOLATILITY_LOW]
  else []

/-- Valuation rules, lines 137-147 (thresholds 25/8 for Korean tickers,
35/12 for US). -/
def valuationFlags (f : FeatureSet) : List SemFlag :=
  match f.pe with
  | none => []
  | some pe =>
    if f.is_korean then
      if pe > 25 then [.VALUATION_EXPENSIVE]
      else if pe < 8 then [.VALUATION_CHEAP]
      else []
    else
      if pe > 35 then [.VALUATION_EXPENSIVE]
      else if pe < 12 then [.VALUATION_CHEAP]
      else []

/-- Quality rules, lines 150-155 (a fractional ROE below 1.0 is read as a
ratio and scaled to percent). -/
def qualityFlags (f : FeatureSet) : List SemFlag :=
  match f.roe with
  | none => []
  | some roe =>
    let roePct := if roe < 1 then roe * 100 else roe
    if roePct > 20 then [.QUALITY_STRONG]
    else if roePct < 5 then [.QUALITY_WEAK]
    else []

/-- Market-risk rules, lines 158-162. -/
def marketRiskFlags (f : FeatureSet) : List SemFlag :=
  match f.vix_or_vkospi with
  | none => []
  | some v =>
    if v > 25 then [.MARKET_RISK_OFF]
    else if v < 15 then [.MARKET_RISK_ON]
    else []

/-- News rules, lines 172-212: with no news, `NEWS_MIXED_OR_THIN`; otherwise
the top-relevance item is classified by the 0.3 relevance threshold and the
positive/negative keyword counts of its title. -/
def newsFlags (f : FeatureSet) : List SemFlag :=
  match f.news_list with
  | [] => [.NEWS_MIXED_OR_THIN]
  | hd :: tl =>
    let top := topScored hd tl
    if top.relevance ≥ 3/10 then
      if top.posCount > top.negCount ∧ top.posCount ≥ 1 then [.NEWS_POSITIVE_EVENT]
      else if top.negCount > top.posCount ∧ top.negCount ≥ 1 then [.NEWS_NEGATIVE_EVENT]
      else [.NEWS_MIXED_OR_THIN]
    else [.NEWS_LOW_RELEVANCE]

/-- Flags produced by the numeric threshold rules of dimensions 1-7, before
the news block, in source append order (lines 100-162). -/
def preNewsFlags (f : FeatureSet) : List SemFlag :=
  trendFlags f ++ momentumFlags f ++ techFlags f ++ volatilityFlags f ++
    valuationFlags f ++ qualityFlags f ++ marketRiskFlags f

/-- All flags produced before the minimum-count floor (lines 100-213). -/
def ruleFlags (f : FeatureSet) : List SemFlag :=
  preNewsFlags f ++ newsFlags f

/-- The flag output of `generate_semantic_flags` (lines 78-218): the rule
flags, with one `NEUTRAL_SIGNAL` appended when fewer than 3 flags were
produced (lines 214-216).  (The second return value, the `news_analysis`
dictionary, carries news metadata only and is not modelled.) -/
def generate_semantic_flags (f : FeatureSet) : List SemFlag :=
  if (ruleFlags f).length < 3 then ruleFlags f ++ [.NEUTRAL_SIGNAL]
  else ruleFlags f

/-- Profile identifiers of `get_action_profile` (lines 221-361). -/
inductive ProfileId where
  | EXTREME_OVERBOUGHT_PAUSE
  | MOMENTUM_CHASER
  | VALUE_RECOVERY
  | QUALITY_COMPOUNDER
  | RISK_OFF_DEFENSIVE
  | EVENT_DRIVEN
  | OVERBOUGHT_CAUTIOUS
  | NEUTRAL_WAIT
deriving DecidableEq

/-- The profile record returned by `get_action_profile` (one fixed bundle per
matched rule). -/
structure ActionProfile where
  id : ProfileId
  decision_action : String
  execution_style : String
  position_sizing : String
  invalidators : List String
  take_profit_rule : String
  stop_rule : String
  summary : String
  risk_note : String
  market_condition : String
deriving DecidableEq

/-- `get_action_profile(flags, rsi)` from `src/utils/profile_classifier.py`
lines 221-361: convert the flag list to a set and run the priority-ordered
first-match-wins rules; each branch returns its fixed record.  The `rsi`
parameter is accepted (default `None`) but never read by the body. -/
def get_action_profile (flags : List SemFlag) (rsi : Option ℚ) : ActionProfile :=
  if SemFlag.TECH_EXTREME_OVERBOUGHT ∈ flags then
    { id := .EXTREME_OVERBOUGHT_PAUSE
      decision_action := "현상 유지"
      execution_style := "신규 진입 보류, 기존 보유분 일부 차익실현 검토"
      position_sizing := "축소 권장"
      invalidators := ["RSI가 70 아래로 복귀"]
      take_profit_rule := "현 수준(RSI 80+)에서 일부 차익실현"
      stop_rule := "단기 지지선(MA5) 이탈 시 추가 축소"
      summary := "극심한 과열 구간으로 신규 진입을 보류하고 차익실현을 검토해야 합니다."
      risk_note := "RSI 80 이상은 단기 조정 확률이 매우 높습니다."
      market_condition := "과열" }
  else if SemFlag.TREND_UP_STRONG ∈ flags ∧
      (SemFlag.MOMENTUM_SPIKE ∈ flags ∨ SemFlag.MOMENTUM_UP ∈ flags) ∧
      SemFlag.VALUATION_EXPENSIVE ∉ flags ∧
      SemFlag.TECH_EXTREME_OVERBOUGHT ∉ flags then
    { id := .MOMENTUM_CHASER
      decision_action := "매수"
      execution_style := "추세 추종, 분할 매수"
      position_sizing := "보통"
      invalidators := ["단기 이평선(MA20) 이탈", "RSI 80 돌파"]
      take_profit_rule := "RSI 75+ 도달 시 일부 차익"
      stop_rule := "MA20 하향 이탈 시 50% 축소"
      summary := "강력한 상승 추세와 모멘텀이 확인되어 추세 추종 전략이 유효합니다."
      risk_note := "급등 이후 조정 리스크가 있으니 분할 매수를 권장합니다."
      market_condition := "상승" }
  else if (SemFlag.TECH_OVERSOLD ∈ flags ∨ SemFlag.VALUATION_CHEAP ∈ flags) ∧
      SemFlag.QUALITY_WEAK ∉ flags ∧
      SemFlag.TREND_DOWN ∉ flags then
    { id := .VALUE_RECOVERY
      decision_action := "매수"
      execution_style := "분할 매수, 평단가 낮추기"
      position_sizing := "보통"
      invalidators := ["추가 하락 -10% 이상", "재무 악화 뉴스"]
      take_profit_rule := "RSI 60+ 도달 시 일부 차익"
      stop_rule := "최근 저점 -5% 이탈 시 손절"
      summary := "저평가 또는 과매도 국면에서 반등 가능성이 포착됩니다."
      risk_note := "바닥 확인이 필요하며, 낙폭 과대 리스크가 존재합니다."
      market_condition := "저평가" }
  else if SemFlag.QUALITY_STRONG ∈ flags ∧
      SemFlag.VOLATILITY_LOW ∈ flags ∧
      SemFlag.TREND_DOWN ∉ flags then
    { id := .QUALITY_COMPOUNDER
      decision_action := "매수"
      execution_style := "장기 보유, 조정 시 추가 매수"
      position_sizing := "크게"
      invalidators := ["ROE 15% 미만 하락", "산업 구조 악화"]
      take_profit_rule := "목표 수익률 도달 또는 밸류에이션 과열 시"
      stop_rule := "펀더멘털 훼손 시에만 고려"
      summary := "우수한 펀더멘털과 낮은 변동성으로 장기 성장이 기대됩니다."
      risk_note := "시장 급락 시에도 기업 본질은 건전하나, 단기 주가 조정은 발생 가능합니다."
      market_condition := "안정" }
  else if SemFlag.MARKET_RISK_OFF ∈ flags ∧
      (SemFlag.VOLATILITY_LOW ∈ flags ∨ SemFlag.QUALITY_STRONG ∈ flags) then
    { id := .RISK_OFF_DEFENSIVE
      decision_action := "현상 유지"
      execution_style := "보수적 대기, 소량 보유"
      position_sizing := "작게"
      invalidators := ["시장 변동성 완화 (VIX < 20)"]
      take_profit_rule := "단기 반등 시 일부 차익"
      stop_rule := "시장 추가 악화 시 추가 축소"
      summary := "시장 불확실성이 높은 상황에서 방어적 움직임을 보이고 있습니다."
      risk_note := "전반적 하락장에서는 개별 종목 강세도 제한적일 수 있습니다."
      market_condition := "불확실" }
  else if (SemFlag.NEWS_POSITIVE_EVENT ∈ flags ∨ SemFlag.NEWS_NEGATIVE_EVENT ∈ flags) ∧
      (SemFlag.VOLATILITY_HIGH ∈ flags ∨ SemFlag.SPIKE_UP ∈ flags ∨
        SemFlag.SPIKE_DOWN ∈ flags) then
    { id := .EVENT_DRIVEN
      decision_action := "기민한 대응 필요"
      execution_style := "뉴스 추세 확인 후 단기 대응"
      position_sizing := "작게 (높은 변동성)"
      invalidators := ["뉴스 영향 소멸", "변동성 정상화"]
      take_profit_rule := "뉴스 효과 피크 시 빠른 차익"
      stop_rule := "뉴스 반전 시 즉시 청산"
      summary := "뉴스/이벤트로 인한 단기 변동성이 확대되고 있어 기민한 대응이 요구됩니다."
      risk_note := "뉴스 기반 급등/급락은 되돌림이 빠를 수 있습니다."
      market_condition := "이벤트" }
  else if SemFlag.TECH_OVERBOUGHT ∈ flags ∧ SemFlag.TECH_EXTREME_OVERBOUGHT ∉ flags then
    { id := .OVERBOUGHT_CAUTIOUS
      decision_action := "매수"
      execution_style := "눌림목 대기 또는 소량 분할"
      position_sizing := "작게"
      invalidators := ["RSI 80 돌파"]
      take_profit_rule := "RSI 75+ 시 일부 차익"
      stop_rule := "단기 지지선 이탈 시 축소"
      summary := "단기 과열 신호가 나타나므로 신중한 접근이 필요합니다."
      risk_note := "RSI 70+ 구간은 조정 가능성이 높습니다."
      market_condition := "과열" }
  else
    { id := .NEUTRAL_WAIT
      decision_action := "관망"
      execution_style := "추가 신호 확인 후 판단"
      position_sizing := "보통"
      invalidators := ["명확한 추세 형성"]
      take_profit_rule := "N/A"
      stop_rule := "N/A"
      summary := "뚜렷한 방향성이 보이지 않아 혼조세 양상입니다."
      risk_note := "추세 불명확 구간에서는 성급한 진입이 위험할 수 있습니다."
      market_condition := "중립" }

/-- A feature set on which every numeric threshold rule of dimensions 1-7 is
silent (trend return between the bands, flat momentum, mid RSI and
volatility, no valuation/quality/risk data) and which carries no news. -/
def neutralFeatures : FeatureSet :=
  { ret_1w := 0, ret_1m := 0, ret_3m := 10, rsi := 50, volatility := 30,
    pe := none, roe := none, vix_or_vkospi := none, is_korean := false,
    news_list := [] }

/-- C6 counterexample.  A FeatureSet whose feature values produce zero flags
from the threshold rules does NOT classify to the singleton
`{NEUTRAL_SIGNAL}`: the news dimension always contributes a flag
(`NEWS_MIXED_OR_THIN` when there is no news), so the result is the pair
`[NEWS_MIXED_OR_THIN, NEUTRAL_SIGNAL]` of size 2. -/
theorem C6_counterexample :
    preNewsFlags neutralFeatures = [] ∧
      generate_semantic_flags neutralFeatures =
        [SemFlag.NEWS_MIXED_OR_THIN, SemFlag.NEUTRAL_SIGNAL] ∧
      generate_semantic_flags neutralFeatures ≠ [SemFlag.NEUTRAL_SIGNAL] := by
  refine ⟨?_, ?_, ?_⟩ <;> decide

/-- C6 amended.  The floor behaviour is as claimed — whenever all the rules
together produced fewer than 3 flags, one `NEUTRAL_SIGNAL` is appended — but
a zero-flag run of the dimension 1-7 threshold rules with no news yields
exactly `[NEWS_MIXED_OR_THIN, NEUTRAL_SIGNAL]` (size 2, never empty), not the
singleton `{NEUTRAL_SIGNAL}`: the news dimension always emits a flag. -/
theorem C6_flag_minimum (f : FeatureSet) :
    (preNewsFlags f = [] → f.news_list = [] →
      generate_semantic_flags f =
        [SemFlag.NEWS_MIXED_OR_THIN, SemFlag.NEUTRAL_SIGNAL]) ∧
    ((ruleFlags f).length < 3 →
      generate_semantic_flags f = ruleFlags f ++ [SemFlag.NEUTRAL_SIGNAL] ∧
        SemFlag.NEUTRAL_SIGNAL ∈ generate_semantic_flags f) := by
  constructor
  · intro h1 h2
    have hr : ruleFlags f = [SemFlag.NEWS_MIXED_OR_THIN] := by
      unfold ruleFlags
      rw [h1]
      simp [newsFlags, h2]
    unfold generate_semantic_flags
    rw [hr]
    decide
  · intro h
    unfold generate_semantic_flags
    rw [if_pos h]
    exact ⟨rfl, by simp⟩

/-- Witness for C6 at the all-neutral feature set, which satisfies both
hypotheses. -/
theorem C6_flag_minimum_witness :
    generate_semantic_flags neutralFeatures =
        [SemFlag.NEWS_MIXED_OR_THIN, SemFlag.NEUTRAL_SIGNAL] ∧
      (generate_semantic_flags neutralFeatures =
          ruleFlags neutralFeatures ++ [SemFlag.NEUTRAL_SIGNAL] ∧
        SemFlag.NEUTRAL_SIGNAL ∈ generate_semantic_flags neutralFeatures) :=
  ⟨(C6_flag_minimum neutralFeatures).1 (by decide) (by decide),
   (C6_flag_minimum neutralFeatures).2 (by decide)⟩

/-- C8.  Profile priority is first-match-wins in the fixed rule order: any
flag set containing `TECH_EXTREME_OVERBOUGHT` — whatever else it contains,
momentum-chaser flags included — selects rule 1's pause-new-entries profile
`EXTREME_OVERBOUGHT_PAUSE`, never the momentum-chaser profile. -/
theorem C8_profile_priority (flags : List SemFlag) (rsi : Option ℚ)
    (h : SemFlag.TECH_EXTREME_OVERBOUGHT ∈ flags) :
    (get_action_profile flags rsi).id = ProfileId.EXTREME_OVERBOUGHT_PAUSE ∧
      (get_action_profile flags rsi).id ≠ ProfileId.MOMENTUM_CHASER := by
  have hp : (get_action_profile flags rsi).id = ProfileId.EXTREME_OVERBOUGHT_PAUSE := by
    unfold get_action_profile
    rw [if_pos h]
  exact ⟨hp, by rw [hp]; decide⟩

/-- Witness for C8 with a flag set containing `TECH_EXTREME_OVERBOUGHT`
together with the momentum-chaser flags `TREND_UP_STRONG` and
`MOMENTUM_SPIKE` (and no `VALUATION_EXPENSIVE`). -/
theorem C8_profile_priority_witness :
    (get_action_profile
        [SemFlag.TECH_EXTREME_OVERBOUGHT, SemFlag.TREND_UP_STRONG, SemFlag.MOMENTUM_SPIKE]
        none).id = ProfileId.EXTREME_OVERBOUGHT_PAUSE ∧
      (get_action_profile
        [SemFlag.TECH_EXTREME_OVERBOUGHT, SemFlag.TREND_UP_STRONG, SemFlag.MOMENTUM_SPIKE]
        none).id ≠ ProfileId.MOMENTUM_CHASER :=
  C8_profile_priority _ none (by decide)

/-- C10.  The `rsi` parameter of `get_action_profile` has no influence on its
result: for every flag list and any two `rsi` values (present or `None`), the
selected profile is identical — selection depends only on the flag set. -/
theorem C10_rsi_has_no_influence (flags : List SemFlag) (r1 r2 : Option ℚ) :
    get_action_profile flags r1 = get_action_profile flags r2 := rfl

end ProfileClassifier
